import Mathlib

/-!
Verification of the storybook interaction-session controller
(`src/storybook_controller/storybook_fsm.py`).

The development shallowly embeds the controller: its session state
(`StorybookFSM.__init__`), the declarative transition table
(`evaluate_transitions`, lines 103-221) as data, the guard predicates
(`more_sentences_available`, `more_pages_available`), the timer actions
(lines 538-545), the trigger methods (lines 437-471) and the inbound ROS
message handlers (lines 344-432).  A fired trigger is embedded as what the
program actually runs: the `transitions.Machine` of line 228 declines to
bind a trigger convenience function when the model already defines that
attribute (`Machine._checked_assignment` logs "Model already contains
attribute ... Skip binding." and leaves the attribute alone; the override
behaviour exists only behind the opt-in `model_override` flag, which the
code does not set), and `StorybookFSM` defines plain methods for all nine
trigger names (lines 437-466), so every `self.<trigger>()` call runs only
the handwritten method body — a log line, plus the question-list/cursor
reset for `child_end_page_response_complete` — and never reaches the
machine's transition table.  The table is embedded nonetheless, because
several claims are decided by contrasting the rules the code declares with
the dispatch that never runs.  Fallible Python operations are mirrored
with `Except`: arithmetic or `len` on `None` is a TypeError, `.cancel()`
on `None` an AttributeError, and a missing end-page question an Exception.
-/

namespace StorybookVerif

/-- Python exceptions that the embedded code can surface. -/
inductive PyErr
  | typeError
  | attributeError
  | exception
deriving DecidableEq, Repr

/-- The FSM states of lines 83-98: `not_reading_states + explore_states +
evaluate_states`. -/
inductive St
  | APP_START
  | BEGIN_EXPLORE
  | BEGIN_EVALUATE
  | WAITING_FOR_STORY_LOAD
  | WAITING_FOR_NEXT_PAGE
  | WAITING_FOR_CHILD_AUDIO
  | WAITING_FOR_END_PAGE_JIBO_QUESTION
  | WAITING_FOR_END_PAGE_CHILD_RESPONSE
  | WAITING_FOR_NEXT_PAGE_JIBO_INTERLUDE
  | END_STORY
  | WAITING_FOR_END_STORY_CHILD_AUDIO
  | END_EVALUATE
deriving DecidableEq, Repr

/-- The triggers of the transition table (the trigger methods of lines
437-466). -/
inductive Trig
  | storybook_selected
  | storybook_loaded
  | page_info_received
  | child_audio_timeout
  | child_sentence_audio_complete
  | jibo_finish_tts
  | child_end_page_response_complete
  | jibo_finish_child_asr
  | begin_evaluate_mode
deriving DecidableEq, Repr

/-- The action callbacks named by the transition table (lines 476-572). -/
inductive Cb
  | tablet_show_library_panel
  | jibo_stall_story_loading
  | jibo_start_story
  | tablet_next_page
  | jibo_next_page
  | tablet_show_next_sentence
  | tablet_begin_record
  | tablet_stop_and_discard_record
  | start_child_audio_timer
  | stop_child_audio_timer
  | jibo_reprompt_child_audio
  | send_end_page_prompt
  | tablet_go_to_end_page
  | jibo_end_story
  | jibo_respond_to_end_story
deriving DecidableEq, Repr

/-- The guard predicates named by the transition table (lines 578-587). -/
inductive Cond
  | more_sentences_available
  | more_pages_available
deriving DecidableEq, Repr

/-- Modelled from the spec: the question-type tags of the end-page question
collaborator (`robot_feedback.EndPageQuestionType`; that module is not under
`src/`, the spec lists tap-a-word, tap-a-scene-object and pronounce-a-word
questions answered via tap or speech). -/
inductive QuestionType
  | WORD_TAP
  | SCENE_OBJECT_TAP
  | WORD_PRONOUNCE
deriving DecidableEq, Repr

/-- Modelled from the spec: one end-page question object of the learner-model
collaborator, "each exposing a question-type tag, an ask(sink) action, and a
try-answer(query, model) action that reports whether the query satisfied the
question".  `qid` identifies the object; `answer_correct` is the judgment
try-answer reports (the controller under verification never consults it). -/
structure EndPageQuestion where
  question_type : QuestionType
  qid : Nat
  answer_correct : String → Bool

/-- One `threading.Timer` object: constructed unstarted; `.start()` arms it,
`.cancel()` disarms it. -/
structure TimerObj where
  tid : Nat
  started : Bool
  cancelled : Bool
deriving DecidableEq, Repr

/-- `StorybookState` mode constants (values stand for the ROS message
constants; only their distinctness matters). -/
def NOT_READING : Int := 0

def EXPLORE_MODE : Int := 1

def EVALUATE_MODE : Int := 2

/-- The session state owned by `StorybookFSM` (`__init__`, lines 32-99, plus
the `state` attribute the `transitions.Machine` maintains).  Fields the
embedded operations never read (story id, download flag, tinkertexts,
scene objects, audio-playing flag, audio file name) are omitted.  `timers`
is the world of `threading.Timer` objects the controller has constructed,
and `child_audio_evaluate_timer` the `tid` the handle currently refers to. -/
structure Session where
  state : St
  jibo_tts_on : Bool
  jibo_asr_empty : Bool
  current_storybook_mode : Option Int
  num_story_pages : Option Int
  current_page_number : Option Int
  current_sentences : Option (List String)
  reported_evaluating_sentence_index : Option Int
  child_audio_evaluate_timer : Option Nat
  timers : List TimerObj
  end_page_questions : List EndPageQuestion
  end_page_question_idx : Option Int

/-- The session right after `__init__` (every story/page field `None`,
`jibo_tts_on = False`, `jibo_asr_empty = True`, no timer, no questions) in
the machine's initial state `APP_START` (line 99). -/
def initSession : Session :=
  { state := St.APP_START
    jibo_tts_on := false
    jibo_asr_empty := true
    current_storybook_mode := none
    num_story_pages := none
    current_page_number := none
    current_sentences := none
    reported_evaluating_sentence_index := none
    child_audio_evaluate_timer := none
    timers := []
    end_page_questions := []
    end_page_question_idx := none }

/-- Guard `more_sentences_available` (lines 578-582):
`self.reported_evaluating_sentence_index + 1 < len(self.current_sentences)`.
`None + 1` raises TypeError, as does `len(None)`. -/
def more_sentences_available (s : Session) : Except PyErr Bool :=
  match s.reported_evaluating_sentence_index with
  | none => .error .typeError
  | some i =>
    match s.current_sentences with
    | none => .error .typeError
    | some xs => .ok (decide (i + 1 < (xs.length : Int)))

/-- Guard `more_pages_available` (lines 584-587):
`self.current_page_number + 1 < self.num_story_pages`.  `None + 1` raises
TypeError, as does comparing an int against `None`. -/
def more_pages_available (s : Session) : Except PyErr Bool :=
  match s.current_page_number with
  | none => .error .typeError
  | some p =>
    match s.num_story_pages with
    | none => .error .typeError
    | some n => .ok (decide (p + 1 < n))

/-- Action `start_child_audio_timer` (lines 538-541): constructs a fresh
`threading.Timer(self.CHILD_AUDIO_SILENCE_TIMEOUT_SECONDS, self.timer_expire)`
and rebinds the handle to it.  The constructor does not arm the timer (the
code never calls `.start()`), and the previous handle is not cancelled. -/
def start_child_audio_timer (s : Session) : Session :=
  { s with
    timers := s.timers ++ [{ tid := s.timers.length, started := false, cancelled := false }]
    child_audio_evaluate_timer := some s.timers.length }

/-- Action `stop_child_audio_timer` (lines 543-545):
`self.child_audio_evaluate_timer.cancel()`.  A `None` handle raises
AttributeError; otherwise the referenced timer object is cancelled. -/
def stop_child_audio_timer (s : Session) : Except PyErr Session :=
  match s.child_audio_evaluate_timer with
  | none => .error .attributeError
  | some k =>
    .ok { s with
          timers := s.timers.map fun t =>
            if t.tid = k then { t with cancelled := true } else t }

/-- A rule's source: a named state or the `"*"` wildcard. -/
inductive Src
  | state (s : St)
  | any
deriving DecidableEq, Repr

/-- A rule's destination: a named state or the `"="` stay-in-place marker. -/
inductive Dst
  | to (s : St)
  | same
deriving DecidableEq, Repr

/-- One entry of the `transitions` list. -/
structure Rule where
  trigger : Trig
  source : Src
  dest : Dst
  conditions : List Cond := []
  before : List Cb := []
  after : List Cb := []
deriving DecidableEq, Repr

/-- The transition table `evaluate_transitions` (lines 103-221), in
declaration order (`not_reading_transitions` and `explore_transitions` are
empty, line 223). -/
def evaluate_transitions : List Rule :=
  [ { trigger := .storybook_selected, source := .state .BEGIN_EVALUATE,
      dest := .to .WAITING_FOR_STORY_LOAD, after := [.jibo_stall_story_loading] },
    { trigger := .storybook_loaded, source := .state .WAITING_FOR_STORY_LOAD,
      dest := .to .WAITING_FOR_STORY_LOAD, before := [.jibo_start_story] },
    { trigger := .jibo_finish_tts, source := .state .WAITING_FOR_STORY_LOAD,
      dest := .to .WAITING_FOR_NEXT_PAGE, after := [.tablet_next_page] },
    { trigger := .page_info_received, source := .state .WAITING_FOR_NEXT_PAGE,
      dest := .to St.WAITING_FOR_CHILD_AUDIO,
      after := [.tablet_show_next_sentence, .start_child_audio_timer] },
    { trigger := .child_audio_timeout, source := .state St.WAITING_FOR_CHILD_AUDIO,
      dest := .to St.WAITING_FOR_CHILD_AUDIO,
      before := [.jibo_reprompt_child_audio, .tablet_stop_and_discard_record] },
    { trigger := .jibo_finish_tts, source := .state St.WAITING_FOR_CHILD_AUDIO,
      dest := .to St.WAITING_FOR_CHILD_AUDIO,
      after := [.start_child_audio_timer, .tablet_begin_record] },
    { trigger := .child_sentence_audio_complete, source := .state St.WAITING_FOR_CHILD_AUDIO,
      dest := .to St.WAITING_FOR_CHILD_AUDIO,
      after := [.tablet_show_next_sentence, .start_child_audio_timer],
      conditions := [.more_sentences_available] },
    { trigger := .child_sentence_audio_complete, source := .state St.WAITING_FOR_CHILD_AUDIO,
      dest := .to .WAITING_FOR_END_PAGE_JIBO_QUESTION,
      before := [.stop_child_audio_timer], after := [.send_end_page_prompt] },
    { trigger := .jibo_finish_tts, source := .state .WAITING_FOR_END_PAGE_JIBO_QUESTION,
      dest := .to .WAITING_FOR_END_PAGE_CHILD_RESPONSE },
    { trigger := .child_end_page_response_complete,
      source := .state .WAITING_FOR_END_PAGE_CHILD_RESPONSE,
      dest := .to .WAITING_FOR_NEXT_PAGE_JIBO_INTERLUDE,
      after := [.jibo_next_page], conditions := [.more_pages_available] },
    { trigger := .jibo_finish_tts, source := .state .WAITING_FOR_NEXT_PAGE_JIBO_INTERLUDE,
      dest := .to .WAITING_FOR_NEXT_PAGE, after := [.tablet_next_page] },
    { trigger := .child_end_page_response_complete,
      source := .state .WAITING_FOR_END_PAGE_CHILD_RESPONSE,
      dest := .to .END_STORY, after := [.tablet_go_to_end_page, .jibo_end_story] },
    { trigger := .jibo_finish_tts, source := .state .END_STORY,
      dest := .to St.WAITING_FOR_END_STORY_CHILD_AUDIO },
    { trigger := .jibo_finish_child_asr, source := .state St.WAITING_FOR_END_STORY_CHILD_AUDIO,
      dest := .to .END_EVALUATE, after := [.jibo_respond_to_end_story] },
    { trigger := .jibo_finish_tts, source := .state .END_EVALUATE,
      dest := .to .END_EVALUATE, after := [.tablet_show_library_panel] },
    { trigger := .begin_evaluate_mode, source := .any, dest := .to .BEGIN_EVALUATE },
    { trigger := .jibo_finish_tts, source := .any, dest := .same },
    { trigger := .jibo_finish_child_asr, source := .any, dest := .same },
    { trigger := .page_info_received, source := .any, dest := .same } ]

/-- Does a rule's source cover the current state? -/
def srcMatch (src : Src) (st : St) : Bool :=
  match src with
  | .any => true
  | .state s => decide (s = st)

/-- The rules whose trigger and source match, in declaration order (the
`transitions` library expands wildcard sources to every state, keeping the
declaration order within each state's rule list). -/
def candidates (t : Trig) (st : St) : List Rule :=
  evaluate_transitions.filter fun r => decide (r.trigger = t) && srcMatch r.source st

/-- The body of the trigger method the class defines (lines 437-471):
`child_end_page_response_complete` resets the end-page-question list and
cursor (lines 455-460); every other trigger method only logs. -/
def triggerBody (t : Trig) (s : Session) : Session :=
  match t with
  | .child_end_page_response_complete =>
    { s with end_page_questions := [], end_page_question_idx := none }
  | _ => s

/-- A trigger call `self.<trigger>()` as this program actually runs it.
`transitions.Machine` skips binding a trigger convenience function whenever
the model already has the attribute, and `StorybookFSM` defines plain
methods for all nine trigger names (lines 437-466), so the call executes
only the handwritten method body: the machine's transition table is never
consulted, the `state` attribute is never written, no callback or outbound
command runs, and nothing can raise (totality of this `Session → Session`
function mirrors that absence of exceptions). -/
def fireTrigger (t : Trig) (s : Session) : Session :=
  triggerBody t s

/-- The `StorybookEvent` message kinds the protocol names (the constants of
the `unity_game_msgs` message referenced by the code; only their
distinctness matters here). -/
inductive EventType
  | HELLO_WORLD
  | SPEECH_ACE_RESULT
  | WORD_TAPPED
  | SCENE_OBJECT_TAPPED
  | SENTENCE_SWIPED
  | RECORD_AUDIO_COMPLETE
  | STORY_SELECTED
  | STORY_LOADED
  | EVALUATE_MODE_SELECTED
deriving DecidableEq, Repr

/-- `self.STORYBOOK_EVENT_MESSAGES` (lines 72-81): the allowed inbound
kinds.  The list has eight entries; `EVALUATE_MODE_SELECTED` is not among
them. -/
def STORYBOOK_EVENT_MESSAGES : List EventType :=
  [ .HELLO_WORLD, .SPEECH_ACE_RESULT, .WORD_TAPPED, .SCENE_OBJECT_TAPPED,
    .SENTENCE_SWIPED, .RECORD_AUDIO_COMPLETE, .STORY_SELECTED, .STORY_LOADED ]

/-- What `storybook_event_ros_message_handler` does with an inbound message:
enqueue it (the queue after the call) or terminate the process. -/
inductive HandlerResult
  | enqueued (q : List EventType)
  | exited (code : Nat)
deriving DecidableEq, Repr

/-- `storybook_event_ros_message_handler` (lines 344-356): an allowlisted
kind is put on `self.event_queue`; anything else is `sys.exit(1)`. -/
def storybook_event_ros_message_handler (e : EventType) (q : List EventType) :
    HandlerResult :=
  if e ∈ STORYBOOK_EVENT_MESSAGES then .enqueued (q ++ [e]) else .exited 1

/-- The trigger method that the dispatch `process_storybook_event`
(lines 251-337) invokes for each event kind once the consumer dequeues it:
`HELLO_WORLD` ends in `self.begin_evaluate_mode()` (line 272),
`RECORD_AUDIO_COMPLETE` in `self.child_sentence_audio_complete()` (line
319), `STORY_SELECTED` in `self.storybook_selected()` (line 327),
`STORY_LOADED` in `self.storybook_loaded()` (line 332) and
`EVALUATE_MODE_SELECTED` in `self.begin_evaluate_mode()` (line 337); the
remaining branches invoke no trigger method directly (the tap branches may
reach one indirectly through `try_answer_question`). -/
def processStorybookEventTrigger (e : EventType) : Option Trig :=
  match e with
  | .HELLO_WORLD => some .begin_evaluate_mode
  | .SPEECH_ACE_RESULT => none
  | .WORD_TAPPED => none
  | .SCENE_OBJECT_TAPPED => none
  | .SENTENCE_SWIPED => none
  | .RECORD_AUDIO_COMPLETE => some .child_sentence_audio_complete
  | .STORY_SELECTED => some .storybook_selected
  | .STORY_LOADED => some .storybook_loaded
  | .EVALUATE_MODE_SELECTED => some .begin_evaluate_mode

/-- What a non-queue callback did: the session afterwards, the events it
put on `self.event_queue`, and the triggers it invoked synchronously in its
own (producer) context rather than through the queue. -/
structure HandlerEffect where
  session : Session
  enqueued : List EventType
  firedDirectly : List Trig

/-- `timer_expire` (lines 469-471), the `threading.Timer` expiry callback:
it calls `self.child_audio_timeout()` synchronously on the timer's own
thread and puts nothing on the event queue. -/
def timer_expire (s : Session) : HandlerEffect :=
  { session := s, enqueued := [], firedDirectly := [.child_audio_timeout] }

/-- `jibo_state_ros_message_handler` (lines 395-410): on the edge where the
robot's sound has just stopped (`not data.is_playing_sound and
self.jibo_tts_on`) it calls `self.jibo_finish_tts()` synchronously on the
subscriber's thread, then records the new flag; nothing is enqueued. -/
def jibo_state_ros_message_handler (is_playing_sound : Bool) (s : Session) :
    HandlerEffect :=
  { session := { s with jibo_tts_on := is_playing_sound }
    enqueued := []
    firedDirectly :=
      if !is_playing_sound && s.jibo_tts_on then [.jibo_finish_tts] else [] }

/-- `current_end_page_question` (lines 609-617): raises when the cursor is
`None`, negative or past the end of the question list; otherwise the
question under the cursor. -/
def current_end_page_question (s : Session) : Except PyErr EndPageQuestion :=
  match s.end_page_question_idx with
  | none => .error .exception
  | some j =>
    if j < 0 then .error .exception
    else if (s.end_page_questions.length : Int) ≤ j then .error .exception
    else
      match s.end_page_questions.get? j.toNat with
      | some q => .ok q
      | none => .error .exception

/-- What `try_answer_question` did: the session afterwards, each
`try_answer(query, ...)` call it made on the current question (with the
correctness judgment that call reported), and the trigger it invoked. -/
structure TryAnswerEffect where
  session : Session
  tried : List (String × Bool)
  firedDirectly : List Trig

/-- `try_answer_question(question_type, query)` (lines 619-624): a mismatch
with the current question's type returns at once; on a match the question's
`try_answer` runs and then `self.child_end_page_response_complete()` is
invoked without consulting try_answer's verdict. -/
def try_answer_question (question_type : QuestionType) (query : String)
    (s : Session) : Except PyErr TryAnswerEffect :=
  match current_end_page_question s with
  | .error e => .error e
  | .ok q =>
    if question_type ≠ q.question_type then
      .ok { session := s, tried := [], firedDirectly := [] }
    else
      match current_end_page_question s with
      | .error e => .error e
      | .ok q2 =>
        .ok { session := s, tried := [(query, q2.answer_correct query)],
              firedDirectly := [.child_end_page_response_complete] }

/-! ## Shared facts and fixtures -/

/-- A session in `WAITING_FOR_CHILD_AUDIO` holding one armed, uncancelled
timer that the handle refers to, on page 1 of 5 with one sentence still to
read. -/
def sessChildAudio : Session :=
  { state := St.WAITING_FOR_CHILD_AUDIO
    jibo_tts_on := false
    jibo_asr_empty := true
    current_storybook_mode := some EVALUATE_MODE
    num_story_pages := some 5
    current_page_number := some 1
    current_sentences := some ["a"]
    reported_evaluating_sentence_index := some (-1)
    child_audio_evaluate_timer := some 0
    timers := [{ tid := 0, started := true, cancelled := false }]
    end_page_questions := []
    end_page_question_idx := none }

/-! ## The claims -/

/-- Claim C1 (code_bug): the handler's allowlist check at lines 351-356
terminates the process on an `EVALUATE_MODE_SELECTED` message —
`STORYBOOK_EVENT_MESSAGES` (lines 72-81) carries only eight kinds, with
`EVALUATE_MODE_SELECTED` missing — even though the consumer's dispatch
`process_storybook_event` has a dedicated branch for that very kind
(lines 334-337, firing `begin_evaluate_mode`), so the claimed nine-kind
allowlist matches the dispatch's intent and the branch is unreachable. -/
theorem C1_evaluate_mode_selected_is_fatal :
    storybook_event_ros_message_handler .EVALUATE_MODE_SELECTED [] = .exited 1
    ∧ EventType.EVALUATE_MODE_SELECTED ∉ STORYBOOK_EVENT_MESSAGES
    ∧ processStorybookEventTrigger .EVALUATE_MODE_SELECTED = some .begin_evaluate_mode
    ∧ ∀ e : EventType, storybook_event_ros_message_handler e [] =
        (if e ∈ STORYBOOK_EVENT_MESSAGES then .enqueued [e] else .exited 1) :=
  ⟨rfl, by decide, rfl, fun e => rfl⟩

/-- Claim C2 (code_bug): the transition rules for
`child_sentence_audio_complete` at lines 140-154 declare exactly the
claimed behaviour — the guarded self-loop running
`tablet_show_next_sentence` then `start_child_audio_timer`, and the
fallthrough to `WAITING_FOR_END_PAGE_JIBO_QUESTION` stopping the timer
(before-callback, so before the state change) and sending the end-page
prompt after it — but those rules are unreachable: the
`transitions.Machine` skipped binding the trigger because the model
defines the method (lines 449-450), so the call made when a
`RECORD_AUDIO_COMPLETE` event is processed (line 319) only logs and
returns the session — state, timers, everything — unchanged. -/
theorem C2_audio_complete_shadowed :
    (∀ s : Session, fireTrigger .child_sentence_audio_complete s = s)
    ∧ candidates .child_sentence_audio_complete St.WAITING_FOR_CHILD_AUDIO =
        [ { trigger := .child_sentence_audio_complete,
            source := .state St.WAITING_FOR_CHILD_AUDIO,
            dest := .to St.WAITING_FOR_CHILD_AUDIO,
            conditions := [.more_sentences_available],
            after := [.tablet_show_next_sentence, .start_child_audio_timer] },
          { trigger := .child_sentence_audio_complete,
            source := .state St.WAITING_FOR_CHILD_AUDIO,
            dest := .to .WAITING_FOR_END_PAGE_JIBO_QUESTION,
            before := [.stop_child_audio_timer],
            after := [.send_end_page_prompt] } ] :=
  ⟨fun _ => rfl, rfl⟩

/-- Claim C3 (code_bug): firing `child_end_page_response_complete` runs
only the shadowed method body (lines 455-460): the end-page-question list
and cursor are indeed reset to empty/unset — the one true part of the
claim — but the state never moves to `WAITING_FOR_NEXT_PAGE_JIBO_INTERLUDE`
or `END_STORY`, because the rules at lines 160-178 that declare exactly
those guarded destinations are unreachable (the Machine skipped binding
the trigger name). -/
theorem C3_end_page_response_shadowed :
    (∀ s : Session, fireTrigger .child_end_page_response_complete s =
        { s with end_page_questions := [], end_page_question_idx := none })
    ∧ (∀ s : Session,
        (fireTrigger .child_end_page_response_complete s).state = s.state)
    ∧ candidates .child_end_page_response_complete
        St.WAITING_FOR_END_PAGE_CHILD_RESPONSE =
        [ { trigger := .child_end_page_response_complete,
            source := .state St.WAITING_FOR_END_PAGE_CHILD_RESPONSE,
            dest := .to .WAITING_FOR_NEXT_PAGE_JIBO_INTERLUDE,
            conditions := [.more_pages_available],
            after := [.jibo_next_page] },
          { trigger := .child_end_page_response_complete,
            source := .state St.WAITING_FOR_END_PAGE_CHILD_RESPONSE,
            dest := .to .END_STORY,
            after := [.tablet_go_to_end_page, .jibo_end_story] } ] :=
  ⟨fun _ => rfl, fun _ => rfl, rfl⟩

/-- Claim C4 (confirmed): firing a trigger — in particular one for which
no transition rule with matching trigger, source and passing guards exists
for the current state — leaves the state unchanged and raises no
exception.  The Machine skipped binding every trigger name (the model
defines all nine methods, lines 437-466), so any `self.<trigger>()` call
runs only the handwritten body, which never writes `state` and contains
nothing that can raise; the embedding is a total `Session → Session`
function, so no `MachineError` or other exception is possible.  The
theorem proves the stronger unconditional fact: every firing preserves the
state, and every trigger except the question-resetting
`child_end_page_response_complete` returns the session identically. -/
theorem C4_unmatched_trigger_no_op (t : Trig) (s : Session) :
    (fireTrigger t s).state = s.state
    ∧ (t ≠ Trig.child_end_page_response_complete → fireTrigger t s = s) := by
  cases t <;>
    first
      | exact ⟨rfl, fun _ => rfl⟩
      | exact ⟨rfl, fun h => absurd rfl h⟩

/-- Claim C5 (code_bug): firing `child_audio_timeout` in
`WAITING_FOR_CHILD_AUDIO` does none of the claimed work.  The rule at
lines 128-133 — which would run the reprompt and discard-recording
callbacks on a self-loop — is unreachable, because the Machine skipped
binding the trigger and the call runs the print-only method at lines
446-447, leaving the session entirely unchanged (no reprompt command, no
`CANCEL_RECORD`, no timer restart); and even that declared rule names no
timer-restart action, so the claimed restart is absent from the table
itself as well. -/
theorem C5_audio_timeout_shadowed :
    (∀ s : Session, fireTrigger .child_audio_timeout s = s)
    ∧ candidates .child_audio_timeout St.WAITING_FOR_CHILD_AUDIO =
        [ { trigger := .child_audio_timeout,
            source := .state St.WAITING_FOR_CHILD_AUDIO,
            dest := .to St.WAITING_FOR_CHILD_AUDIO,
            before := [.jibo_reprompt_child_audio, .tablet_stop_and_discard_record] } ]
    ∧ ∀ r ∈ candidates .child_audio_timeout St.WAITING_FOR_CHILD_AUDIO,
        Cb.start_child_audio_timer ∉ r.before ∧ Cb.start_child_audio_timer ∉ r.after :=
  ⟨fun _ => rfl, rfl, by decide⟩

/-- Claim C6 (code_bug): `start_child_audio_timer` (lines 538-541) only
constructs a `threading.Timer` and rebinds the handle: the previously
pending timer (tid 0, started and uncancelled) is left running —
`.cancel()` is never called on it — and the new timer (tid 1) is never
armed, `.start()` being absent from the code.  In general the timer world
only ever grows by an unstarted timer. -/
theorem C6_start_timer_neither_cancels_nor_arms :
    (start_child_audio_timer sessChildAudio).timers =
      [{ tid := 0, started := true, cancelled := false },
       { tid := 1, started := false, cancelled := false }]
    ∧ (start_child_audio_timer sessChildAudio).child_audio_evaluate_timer = some 1
    ∧ ∀ s : Session, (start_child_audio_timer s).timers =
        s.timers ++ [{ tid := s.timers.length, started := false, cancelled := false }] :=
  ⟨rfl, rfl, fun _ => rfl⟩

/-- Claim C7 (code_bug): the `threading.Timer` expiry callback
`timer_expire` (lines 469-471) enqueues nothing on the event queue and
instead invokes the `child_audio_timeout` trigger synchronously in the
timer's own thread — the claimed enqueue-a-synthetic-event design is not
what the code does (the spec's design notes flag exactly this as a
defect). -/
theorem C7_timer_expire_fires_directly (s : Session) :
    (timer_expire s).enqueued = []
    ∧ (timer_expire s).firedDirectly = [.child_audio_timeout]
    ∧ (timer_expire s).session = s :=
  ⟨rfl, rfl, rfl⟩

/-- Claim C8, counterexample: on the freshly constructed session (every
story/page field `None`), both guards raise TypeError (`None + 1`,
`len(None)`, `int < None`) instead of evaluating to false. -/
theorem C8_guards_counterexample :
    more_sentences_available initSession = .error .typeError
    ∧ more_pages_available initSession = .error .typeError :=
  ⟨rfl, rfl⟩

/-- Claim C8 (corrected): with their data dependencies present the guards
are total — `more_sentences_available` computes
`index + 1 < len(sentences)` and `more_pages_available` computes
`page + 1 < pages` without raising — but when a dependency is `None` they
raise TypeError rather than evaluating false. -/
theorem C8_guards_totality (st : St) (jt ja : Bool) (mode : Option Int)
    (n p i : Int) (xs : List String) (h : Option Nat) (tms : List TimerObj)
    (epq : List EndPageQuestion) (epi : Option Int) :
    more_sentences_available
        ⟨st, jt, ja, mode, some n, some p, some xs, some i, h, tms, epq, epi⟩ =
      .ok (decide (i + 1 < (xs.length : Int)))
    ∧ more_pages_available
        ⟨st, jt, ja, mode, some n, some p, some xs, some i, h, tms, epq, epi⟩ =
      .ok (decide (p + 1 < n))
    ∧ more_sentences_available { initSession with current_sentences := some xs } =
      .error .typeError
    ∧ more_pages_available { initSession with num_story_pages := some n } =
      .error .typeError :=
  ⟨rfl, rfl, rfl, rfl⟩

/-- Claim C9, counterexample: a `JiboState` message reporting sound stopped
(`is_playing_sound = False`) while `jibo_tts_on` was recorded true makes
the subscriber-thread handler invoke the `jibo_finish_tts` trigger
synchronously, with nothing placed on the event queue — an FSM transition
runs outside the queue's single consumer. -/
theorem C9_handler_counterexample :
    (jibo_state_ros_message_handler false
        { initSession with jibo_tts_on := true }).firedDirectly = [.jibo_finish_tts]
    ∧ (jibo_state_ros_message_handler false
        { initSession with jibo_tts_on := true }).enqueued = [] :=
  ⟨rfl, rfl⟩

/-- Claim C9 (corrected): only `StorybookEvent` messages are serialized
through the event queue — the handler of lines 344-356 enqueues allowlisted
kinds and fires nothing itself — while the `JiboState` handler fires
`jibo_finish_tts` directly on its subscriber thread whenever the
sound-just-stopped edge is observed, and the timer expiry callback fires
`child_audio_timeout` directly on the timer thread, so FSM transitions are
not confined to the queue's single consumer. -/
theorem C9_handler_serialization (d : Bool) (s : Session) (e : EventType)
    (q : List EventType) :
    (jibo_state_ros_message_handler d s).enqueued = []
    ∧ (jibo_state_ros_message_handler d s).firedDirectly =
        (if !d && s.jibo_tts_on then [.jibo_finish_tts] else [])
    ∧ (timer_expire s).enqueued = []
    ∧ (timer_expire s).firedDirectly = [.child_audio_timeout]
    ∧ storybook_event_ros_message_handler e q =
        (if e ∈ STORYBOOK_EVENT_MESSAGES then .enqueued (q ++ [e]) else .exited 1) :=
  ⟨rfl, rfl, rfl, rfl, rfl⟩

/-- Claim C10 (confirmed): with an end-page question current (cursor `j` in
range), `try_answer_question(question_type, query)` returns at once — same
session, no `try_answer` call, no trigger — when `question_type` differs
from the current question's type; when it matches, the question's
`try_answer` runs on the query and `child_end_page_response_complete` is
then invoked unconditionally, whatever correctness verdict `try_answer`
reported. -/
theorem C10_try_answer_dispatch (qt : QuestionType) (query : String) (st : St)
    (jt ja : Bool) (mode np pn : Option Int) (cs : Option (List String))
    (ri : Option Int) (h : Option Nat) (tms : List TimerObj)
    (epq : List EndPageQuestion) (j : Int) (q : EndPageQuestion)
    (h0 : 0 ≤ j) (hlen : j < (epq.length : Int)) (hq : epq.get? j.toNat = some q) :
    current_end_page_question
        ⟨st, jt, ja, mode, np, pn, cs, ri, h, tms, epq, some j⟩ = .ok q
    ∧ (qt ≠ q.question_type →
        try_answer_question qt query
          ⟨st, jt, ja, mode, np, pn, cs, ri, h, tms, epq, some j⟩ =
        .ok { session := ⟨st, jt, ja, mode, np, pn, cs, ri, h, tms, epq, some j⟩,
              tried := [], firedDirectly := [] })
    ∧ (qt = q.question_type →
        try_answer_question qt query
          ⟨st, jt, ja, mode, np, pn, cs, ri, h, tms, epq, some j⟩ =
        .ok { session := ⟨st, jt, ja, mode, np, pn, cs, ri, h, tms, epq, some j⟩,
              tried := [(query, q.answer_correct query)],
              firedDirectly := [.child_end_page_response_complete] }) := by
  have h1 : ¬(j < 0) := not_lt.mpr h0
  have h2 : ¬((epq.length : Int) ≤ j) := not_le.mpr hlen
  have hq2 : epq[j.toNat]? = some q := by
    rw [← List.get?_eq_getElem?]; exact hq
  have hcur : current_end_page_question
      ⟨st, jt, ja, mode, np, pn, cs, ri, h, tms, epq, some j⟩ = .ok q := by
    simp [current_end_page_question, h1, h2, hq2]
  refine ⟨hcur, fun hne => ?_, fun heq => ?_⟩
  · simp [try_answer_question, hcur, hne]
  · simp [try_answer_question, hcur, heq]

/-- Claim C10, witnessed at a concrete session holding one `WORD_TAP`
question (whose `try_answer` judges every query incorrect): the matching
call still fires `child_end_page_response_complete`, and a
`SCENE_OBJECT_TAP` call returns unchanged. -/
theorem C10_try_answer_witness :
    current_end_page_question
        ⟨.WAITING_FOR_END_PAGE_CHILD_RESPONSE, false, true, some EVALUATE_MODE, some 5,
          some 1, some ["a"], some (-1), none, [], [⟨.WORD_TAP, 7, fun _ => false⟩],
          some 0⟩ = .ok ⟨.WORD_TAP, 7, fun _ => false⟩
    ∧ (QuestionType.WORD_TAP ≠ (⟨.WORD_TAP, 7, fun _ => false⟩ : EndPageQuestion).question_type →
        try_answer_question .WORD_TAP "cat"
          ⟨.WAITING_FOR_END_PAGE_CHILD_RESPONSE, false, true, some EVALUATE_MODE, some 5,
            some 1, some ["a"], some (-1), none, [], [⟨.WORD_TAP, 7, fun _ => false⟩],
            some 0⟩ =
        .ok { session := ⟨.WAITING_FOR_END_PAGE_CHILD_RESPONSE, false, true,
                some EVALUATE_MODE, some 5, some 1, some ["a"], some (-1), none, [],
                [⟨.WORD_TAP, 7, fun _ => false⟩], some 0⟩,
              tried := [], firedDirectly := [] })
    ∧ (QuestionType.WORD_TAP = (⟨.WORD_TAP, 7, fun _ => false⟩ : EndPageQuestion).question_type →
        try_answer_question .WORD_TAP "cat"
          ⟨.WAITING_FOR_END_PAGE_CHILD_RESPONSE, false, true, some EVALUATE_MODE, some 5,
            some 1, some ["a"], some (-1), none, [], [⟨.WORD_TAP, 7, fun _ => false⟩],
            some 0⟩ =
        .ok { session := ⟨.WAITING_FOR_END_PAGE_CHILD_RESPONSE, false, true,
                some EVALUATE_MODE, some 5, some 1, some ["a"], some (-1), none, [],
                [⟨.WORD_TAP, 7, fun _ => false⟩], some 0⟩,
              tried := [("cat", (⟨.WORD_TAP, 7, fun _ => false⟩ : EndPageQuestion).answer_correct "cat")],
              firedDirectly := [.child_end_page_response_complete] }) :=
  C10_try_answer_dispatch .WORD_TAP "cat" .WAITING_FOR_END_PAGE_CHILD_RESPONSE
    false true (some EVALUATE_MODE) (some 5) (some 1) (some ["a"]) (some (-1)) none []
    [⟨.WORD_TAP, 7, fun _ => false⟩] 0 ⟨.WORD_TAP, 7, fun _ => false⟩
    (by decide) (by decide) rfl

end StorybookVerif
